import Mathlib

/-!
Verification of the message-relay bot in `src/index.js` of harfool/whatapp-bot.

The whole first-party logic is the `client.on("message")` handler, the `ai`
helper around `generateText`, and the top-level startup sequence. We embed
them as pure Lean functions. External effects (the two `message.reply`
sends, the completion call) are supplied as an explicit `World` describing
how each external action would behave during one handler run; the handler
returns the trace of attempted outbound replies, the prompts passed to the
completion client, the console log lines, and whether the async handler
resolved or rejected (an `await` of a rejected promise outside any
`try/catch` makes the handler's promise reject).

JavaScript strings are modelled as Lean `String`; `toLowerCase` as a
character-wise `Char.toLower` (`jsToLower`), and `trim` (used only by the
spec's normalization wording) as dropping whitespace at both ends.
-/

/-- JS `s.toLowerCase()`: lower-case every character. -/
def jsToLower (s : String) : String := ⟨s.data.map Char.toLower⟩

/-- JS `s.trim()`: drop whitespace from both ends. Used only to state the
spec's "trimmed" normalization; the code never trims. -/
def jsTrim (s : String) : String :=
  ⟨((s.data.dropWhile Char.isWhitespace).reverse.dropWhile Char.isWhitespace).reverse⟩

/-- Modelled from the spec: the normalization the spec describes for the
prompt, "the normalized (lower-cased, trimmed) message body". -/
def spec_normalize (s : String) : String := jsToLower (jsTrim s)

/-- `message` object delivered by whatsapp-web.js (the fields the spec's
data model names: sender id, body, timestamp). -/
structure IncomingMessage where
  sender_id : String
  body : String
  received_at : Nat
deriving Repr, DecidableEq

/-- Outcome of one `message.reply(...)` send: the promise resolves, or
rejects with an error value. -/
inductive SendOutcome where
  | ok : SendOutcome
  | fail : String → SendOutcome
deriving Repr, DecidableEq

/-- Outcome of the `generateText` call inside `ai`: resolves with a text,
or rejects with an error value. -/
inductive CompletionResult where
  | success : String → CompletionResult
  | failure : String → CompletionResult
deriving Repr, DecidableEq

/-- External behaviour during one handler run: how the acknowledgment
send, the completion call (as a function of the prompt), the AI-text send
and the fallback send would each turn out. -/
structure World where
  ackSend : SendOutcome
  completion : String → CompletionResult
  resultSend : SendOutcome
  fallbackSend : SendOutcome

/-- `ai(prompt)` from src/index.js: forwards the prompt to `generateText`
and returns its text (or propagates its rejection). -/
def ai (gen : String → CompletionResult) (prompt : String) : CompletionResult :=
  gen prompt

/-- How the handler's promise ended: resolved normally, or rejected with
an uncaught error. -/
inductive HandlerTermination where
  | resolved : HandlerTermination
  | rejected : String → HandlerTermination
deriving Repr, DecidableEq

/-- Trace of one handler run: texts of the attempted outbound replies in
order, prompts passed to the completion client, console log lines, and
the promise's fate. -/
structure RunTrace where
  sends : List String
  prompts : List String
  logs : List String
  termination : HandlerTermination
deriving Repr, DecidableEq

/-- Observable result of one handler run: the trace, plus the message
object as it stands after the run. -/
structure HandleResult where
  sends : List String
  prompts : List String
  logs : List String
  termination : HandlerTermination
  message : IncomingMessage
deriving Repr, DecidableEq

/-- The fixed acknowledgment text of src/index.js line 37. -/
def ackText : String := "AI is Thinking...."

/-- The fixed fallback text of src/index.js line 43. -/
def fallbackText : String := "Sorry, I couldn't process that request."

/-- Body of the `client.on("message")` handler of src/index.js lines
34-45, run on the already-lowered string `msg`:
`if (msg)` (a JS string is falsy exactly when empty); then
`await message.reply("AI is Thinking....")` outside any try/catch, so its
rejection rejects the handler; then inside `try`, `await ai(msg)` and
`await message.reply(aiResponse)` (a rejection of either reaches the
catch); the `catch` logs `"AI Error:"` with the error and awaits the
fallback reply, whose own rejection is uncaught. -/
def handleBody (w : World) (msg : String) : RunTrace :=
  if msg = "" then
    { sends := [], prompts := [], logs := [], termination := .resolved }
  else
    match w.ackSend with
    | .fail e =>
      { sends := [ackText], prompts := [], logs := [],
        termination := .rejected e }
    | .ok =>
      match ai w.completion msg with
      | .success t =>
        match w.resultSend with
        | .ok =>
          { sends := [ackText, t], prompts := [msg], logs := [],
            termination := .resolved }
        | .fail e =>
          match w.fallbackSend with
          | .ok =>
            { sends := [ackText, t, fallbackText], prompts := [msg],
              logs := ["AI Error: " ++ e], termination := .resolved }
          | .fail e2 =>
            { sends := [ackText, t, fallbackText], prompts := [msg],
              logs := ["AI Error: " ++ e], termination := .rejected e2 }
      | .failure e =>
        match w.fallbackSend with
        | .ok =>
          { sends := [ackText, fallbackText], prompts := [msg],
            logs := ["AI Error: " ++ e], termination := .resolved }
        | .fail e2 =>
          { sends := [ackText, fallbackText], prompts := [msg],
            logs := ["AI Error: " ++ e], termination := .rejected e2 }

/-- The `client.on("message")` handler of src/index.js lines 33-46:
`const msg = message.body.toLowerCase()`, then the body above. The
message object itself is only read (`message.body`) and replied to; no
field is ever assigned, so it comes out as it went in. -/
def handle (w : World) (message : IncomingMessage) : HandleResult :=
  let t := handleBody w (jsToLower message.body)
  { sends := t.sends, prompts := t.prompts, logs := t.logs,
    termination := t.termination, message := message }

/-- Process environment at startup: the optional AI-service credential. -/
structure Env where
  googleApiKey : Option String
deriving Repr, DecidableEq

/-- How the process start ended. -/
inductive StartupOutcome where
  | running : StartupOutcome
  | exitNonZero : StartupOutcome
deriving Repr, DecidableEq

/-- The top level of src/index.js (lines 1-49): it builds the client,
registers the "qr", "ready" and "message" handlers and starts the
session. No statement reads the credential and no statement exits the
process, so startup reaches the running state on every environment; the
event names returned are those registered, in order. -/
def startup (_env : Env) : StartupOutcome × List String :=
  (.running, ["qr", "ready", "message"])

/-- A run in which every external action succeeds and the completion
client returns `t`. -/
def okWorld (t : String) : World :=
  { ackSend := .ok, completion := fun _ => .success t,
    resultSend := .ok, fallbackSend := .ok }

/-- A message from sender "A" with the given body. -/
def msgA (b : String) : IncomingMessage :=
  { sender_id := "A", body := b, received_at := 0 }

/-- A run in which the acknowledgment send rejects. -/
def ackFailWorld : World :=
  { ackSend := .fail "send failed", completion := fun _ => .success "ok",
    resultSend := .ok, fallbackSend := .ok }

/-- A run in which the completion call rejects with a timeout. -/
def timeoutWorld : World :=
  { ackSend := .ok, completion := fun _ => .failure "timeout",
    resultSend := .ok, fallbackSend := .ok }

/-- A run in which the completion client answers "4" and all sends
succeed. -/
def mathWorld : World :=
  { ackSend := .ok, completion := fun _ => .success "4",
    resultSend := .ok, fallbackSend := .ok }

/-- A run in which the completion call succeeds but the send of the AI
text rejects; the fallback send then succeeds. -/
def resultSendFailWorld : World :=
  { ackSend := .ok, completion := fun _ => .success "4",
    resultSend := .fail "disconnected", fallbackSend := .ok }

-- Helper lemma: character-wise lower-casing yields the empty string
-- exactly on the empty string.
theorem jsToLower_eq_empty_iff (s : String) : jsToLower s = "" ↔ s = "" := by
  cases s with
  | mk data =>
    simp only [jsToLower]
    constructor
    · intro h
      have h2 : List.map Char.toLower data = ([] : List Char) :=
        congrArg String.data h
      have h3 : data = [] := List.map_eq_nil_iff.mp h2
      rw [h3]
    · intro h
      have h2 : data = ([] : List Char) := congrArg String.data h
      rw [h2]
      rfl

-- Helper lemma: a non-empty body stays non-empty after lower-casing.
theorem jsToLower_ne_empty {s : String} (h : s ≠ "") : jsToLower s ≠ "" :=
  fun he => h ((jsToLower_eq_empty_iff s).mp he)

/-- C1 (corrected), counterexample: a whitespace-only body such as `" "`
is NOT filtered out — `toLowerCase` leaves it non-empty and JS truthiness
only rejects the empty string — so the handler acknowledges, invokes the
completion client with the whitespace prompt, and replies. -/
theorem c1_whitespace_body_is_processed :
    (" " : String).data.all Char.isWhitespace = true ∧
    (handle (okWorld "x") (msgA " ")).sends = [ackText, "x"] ∧
    (handle (okWorld "x") (msgA " ")).prompts = [" "] :=
  ⟨rfl, rfl, rfl⟩

/-- C1 (amended): for a message whose body is the empty string, the
handler does nothing — zero outbound replies and no completion-client
invocation. (The code's filter is JS truthiness of the lowered body, so
only the empty body is excluded; whitespace-only bodies are processed.) -/
theorem c1_empty_body_does_nothing (w : World) (m : IncomingMessage)
    (h : m.body = "") :
    (handle w m).sends = [] ∧ (handle w m).prompts = [] := by
  have h2 : jsToLower m.body = "" := (jsToLower_eq_empty_iff m.body).mpr h
  show (handleBody w (jsToLower m.body)).sends = [] ∧
    (handleBody w (jsToLower m.body)).prompts = []
  rw [h2]
  exact ⟨rfl, rfl⟩

/-- Witness for C1's theorem at the empty body. -/
theorem c1_empty_body_witness :
    (msgA "").body = "" ∧
    ((handle (okWorld "x") (msgA "")).sends = [] ∧
      (handle (okWorld "x") (msgA "")).prompts = []) :=
  ⟨rfl, c1_empty_body_does_nothing (okWorld "x") (msgA "") rfl⟩

/-- C2 (corrected), counterexample: the spec's normalization of
`"  Hello WORLD  "` is `"hello world"`, but the code never trims: the
prompt actually passed to the completion client is `"  hello world  "`. -/
theorem c2_prompt_is_not_trimmed :
    spec_normalize "  Hello WORLD  " = "hello world" ∧
    (handle (okWorld "ok") (msgA "  Hello WORLD  ")).prompts
      = ["  hello world  "] ∧
    (handle (okWorld "ok") (msgA "  Hello WORLD  ")).prompts
      ≠ ["hello world"] := by
  refine ⟨rfl, rfl, ?_⟩
  decide

/-- C2 (amended): for a non-empty body, once the acknowledgment send
succeeds the prompt passed to the completion client is exactly the
lower-cased body — no trimming is applied. -/
theorem c2_prompt_is_lowercased_body (w : World) (m : IncomingMessage)
    (hb : m.body ≠ "") (hack : w.ackSend = .ok) :
    (handle w m).prompts = [jsToLower m.body] := by
  have h : jsToLower m.body ≠ "" := jsToLower_ne_empty hb
  show (handleBody w (jsToLower m.body)).prompts = [jsToLower m.body]
  unfold handleBody
  rw [if_neg h, hack]
  simp only [ai]
  rcases hc : w.completion (jsToLower m.body) with t | e
  · rcases hr : w.resultSend with _ | e1
    · rfl
    · rcases hf : w.fallbackSend with _ | e2 <;> rfl
  · rcases hf : w.fallbackSend with _ | e2 <;> rfl

/-- Witness for C2's theorem at body "  Hello WORLD  ". -/
theorem c2_prompt_witness :
    (msgA "  Hello WORLD  ").body ≠ "" ∧
    (okWorld "ok").ackSend = .ok ∧
    (handle (okWorld "ok") (msgA "  Hello WORLD  ")).prompts
      = [jsToLower (msgA "  Hello WORLD  ").body] :=
  ⟨by decide, rfl,
    c2_prompt_is_lowercased_body (okWorld "ok") (msgA "  Hello WORLD  ")
      (by decide) rfl⟩

/-- C3 (corrected), counterexample: when the acknowledgment send rejects,
the handler's promise rejects (the `await` is outside the try/catch) and
nothing is logged — the failure is neither caught at the handler boundary
nor logged, contradicting "resolves normally in all cases". -/
theorem c3_ack_failure_escapes_unlogged :
    (handle ackFailWorld (msgA "hi")).termination ≠ .resolved ∧
    (handle ackFailWorld (msgA "hi")).termination = .rejected "send failed" ∧
    (handle ackFailWorld (msgA "hi")).logs = [] :=
  ⟨by decide, rfl, rfl⟩

/-- C3 (amended): the handler resolves normally whenever the
acknowledgment send and the fallback send succeed (completion failures
and a failed AI-text send never escape); but a rejection of the
acknowledgment send, or of the fallback send itself, propagates out of
the handler uncaught and unlogged. -/
theorem c3_resolves_when_transport_sends_succeed (w : World)
    (m : IncomingMessage) (hack : w.ackSend = .ok)
    (hfb : w.fallbackSend = .ok) :
    (handle w m).termination = .resolved := by
  show (handleBody w (jsToLower m.body)).termination = .resolved
  unfold handleBody
  by_cases h : jsToLower m.body = ""
  · rw [if_pos h]
  · rw [if_neg h, hack]
    simp only [ai]
    rcases hc : w.completion (jsToLower m.body) with t | e
    · rcases hr : w.resultSend with _ | e1
      · rfl
      · rw [hfb]
    · rw [hfb]

/-- Witness for C3's theorem in the all-success run. -/
theorem c3_resolves_witness :
    (okWorld "x").ackSend = .ok ∧ (okWorld "x").fallbackSend = .ok ∧
    (handle (okWorld "x") (msgA "hi")).termination = .resolved :=
  ⟨rfl, rfl,
    c3_resolves_when_transport_sends_succeed (okWorld "x") (msgA "hi")
      rfl rfl⟩

/-- C4 (confirmed): when the completion call rejects with reason `e`
(after a successful acknowledgment on a non-empty body), the attempted
outbound sequence is exactly the acknowledgment followed by the fixed
fallback string, and the rejection reason goes to the log — the raw error
is never one of the outbound replies. -/
theorem c4_rejection_yields_fallback (w : World) (m : IncomingMessage)
    (e : String) (hb : m.body ≠ "") (hack : w.ackSend = .ok)
    (hc : w.completion (jsToLower m.body) = .failure e) :
    (handle w m).sends = [ackText, fallbackText] ∧
    (handle w m).logs = ["AI Error: " ++ e] := by
  have h : jsToLower m.body ≠ "" := jsToLower_ne_empty hb
  show (handleBody w (jsToLower m.body)).sends = [ackText, fallbackText] ∧
    (handleBody w (jsToLower m.body)).logs = ["AI Error: " ++ e]
  unfold handleBody
  rw [if_neg h, hack]
  simp only [ai]
  rw [hc]
  rcases hf : w.fallbackSend with _ | e2 <;> exact ⟨rfl, rfl⟩

/-- Witness for C4's theorem with a timeout rejection. -/
theorem c4_rejection_witness :
    (handle timeoutWorld (msgA "hi")).sends = [ackText, fallbackText] ∧
    (handle timeoutWorld (msgA "hi")).logs = ["AI Error: " ++ "timeout"] :=
  c4_rejection_yields_fallback timeoutWorld (msgA "hi") "timeout"
    (by decide) rfl rfl

/-- C5 (confirmed): when the completion call resolves with text `t` on a
non-empty body and both sends succeed, the attempted outbound sequence is
exactly the acknowledgment followed by `t` verbatim, and the handler
resolves. -/
theorem c5_success_relayed_verbatim (w : World) (m : IncomingMessage)
    (t : String) (hb : m.body ≠ "") (hack : w.ackSend = .ok)
    (hc : w.completion (jsToLower m.body) = .success t)
    (hr : w.resultSend = .ok) :
    (handle w m).sends = [ackText, t] ∧
    (handle w m).termination = .resolved := by
  have h : jsToLower m.body ≠ "" := jsToLower_ne_empty hb
  show (handleBody w (jsToLower m.body)).sends = [ackText, t] ∧
    (handleBody w (jsToLower m.body)).termination = .resolved
  unfold handleBody
  rw [if_neg h, hack]
  simp only [ai]
  rw [hc, hr]
  exact ⟨rfl, rfl⟩

/-- Witness for C5's theorem: body "What is 2+2?" with the completion
client returning "4" gives the outbound sequence [ack, "4"]. -/
theorem c5_success_witness :
    (handle mathWorld (msgA "What is 2+2?")).sends = [ackText, "4"] ∧
    (handle mathWorld (msgA "What is 2+2?")).termination = .resolved :=
  c5_success_relayed_verbatim mathWorld (msgA "What is 2+2?") "4"
    (by decide) rfl rfl rfl

/-- C6 (corrected), counterexample: when the send of the AI text itself
rejects, the rejection lands in the same `catch` as a completion failure
and the fallback is also attempted — three outbound replies in total, of
which two are result replies, contradicting "never more than two". -/
theorem c6_three_sends_when_result_send_fails :
    (handle resultSendFailWorld (msgA "hi")).sends
      = [ackText, "4", fallbackText] ∧
    2 < (handle resultSendFailWorld (msgA "hi")).sends.length :=
  ⟨rfl, by decide⟩

-- Bridging lemma: the handler's send trace is that of its body on the
-- lowered message body.
theorem handle_sends (w : World) (m : IncomingMessage) :
    (handle w m).sends = (handleBody w (jsToLower m.body)).sends :=
  rfl

-- Equation lemma: run with a rejecting acknowledgment send.
theorem handleBody_ack_fail (w : World) (msg e : String) (h : msg ≠ "")
    (hack : w.ackSend = .fail e) :
    handleBody w msg
      = { sends := [ackText], prompts := [], logs := [],
          termination := .rejected e } := by
  unfold handleBody
  rw [if_neg h, hack]

-- Equation lemma: run with every external action succeeding.
theorem handleBody_success_ok (w : World) (msg t : String) (h : msg ≠ "")
    (hack : w.ackSend = .ok) (hc : w.completion msg = .success t)
    (hr : w.resultSend = .ok) :
    handleBody w msg
      = { sends := [ackText, t], prompts := [msg],
          logs := [], termination := .resolved } := by
  unfold handleBody
  rw [if_neg h, hack]
  simp only [ai]
  rw [hc, hr]

-- Equation lemma: the completion succeeds but the AI-text send rejects;
-- the fallback send succeeds.
theorem handleBody_success_sendfail_ok (w : World) (msg t e1 : String)
    (h : msg ≠ "") (hack : w.ackSend = .ok)
    (hc : w.completion msg = .success t) (hr : w.resultSend = .fail e1)
    (hf : w.fallbackSend = .ok) :
    handleBody w msg
      = { sends := [ackText, t, fallbackText],
          prompts := [msg], logs := ["AI Error: " ++ e1],
          termination := .resolved } := by
  unfold handleBody
  rw [if_neg h, hack]
  simp only [ai]
  rw [hc, hr, hf]

-- Equation lemma: the completion succeeds but both the AI-text send and
-- the fallback send reject.
theorem handleBody_success_sendfail_fail (w : World) (msg t e1 e2 : String)
    (h : msg ≠ "") (hack : w.ackSend = .ok)
    (hc : w.completion msg = .success t) (hr : w.resultSend = .fail e1)
    (hf : w.fallbackSend = .fail e2) :
    handleBody w msg
      = { sends := [ackText, t, fallbackText],
          prompts := [msg], logs := ["AI Error: " ++ e1],
          termination := .rejected e2 } := by
  unfold handleBody
  rw [if_neg h, hack]
  simp only [ai]
  rw [hc, hr, hf]

-- Equation lemma: the completion rejects; the fallback send succeeds.
theorem handleBody_failure_ok (w : World) (msg e : String) (h : msg ≠ "")
    (hack : w.ackSend = .ok) (hc : w.completion msg = .failure e)
    (hf : w.fallbackSend = .ok) :
    handleBody w msg
      = { sends := [ackText, fallbackText],
          prompts := [msg], logs := ["AI Error: " ++ e],
          termination := .resolved } := by
  unfold handleBody
  rw [if_neg h, hack]
  simp only [ai]
  rw [hc, hf]

-- Equation lemma: the completion rejects and the fallback send also
-- rejects.
theorem handleBody_failure_fail (w : World) (msg e e2 : String)
    (h : msg ≠ "") (hack : w.ackSend = .ok)
    (hc : w.completion msg = .failure e)
    (hf : w.fallbackSend = .fail e2) :
    handleBody w msg
      = { sends := [ackText, fallbackText],
          prompts := [msg], logs := ["AI Error: " ++ e],
          termination := .rejected e2 } := by
  unfold handleBody
  rw [if_neg h, hack]
  simp only [ai]
  rw [hc, hf]

/-- C6 (amended): for a non-empty body the acknowledgment is always the
first attempted reply and between one and three replies are attempted in
total; when the acknowledgment send succeeds at least two are attempted,
and exactly two when the send of the AI text also succeeds (a third, the
fallback, is attempted only when the AI-text send itself fails); when the
acknowledgment send fails, no result reply is attempted at all. -/
theorem c6_send_count_bounds (w : World) (m : IncomingMessage)
    (hb : m.body ≠ "") :
    (handle w m).sends.head? = some ackText ∧
    1 ≤ (handle w m).sends.length ∧
    (handle w m).sends.length ≤ 3 ∧
    (w.ackSend = .ok → 2 ≤ (handle w m).sends.length) ∧
    (w.ackSend = .ok → w.resultSend = .ok →
      (handle w m).sends.length = 2) ∧
    (∀ e, w.ackSend = .fail e → (handle w m).sends = [ackText]) := by
  have h : jsToLower m.body ≠ "" := jsToLower_ne_empty hb
  simp only [handle_sends]
  rcases hack : w.ackSend with _ | e0
  · rcases hc : w.completion (jsToLower m.body) with t | e
    · rcases hr : w.resultSend with _ | e1
      · rw [handleBody_success_ok w (jsToLower m.body) t h hack hc hr]
        exact ⟨rfl, show (1:Nat) ≤ 2 from by decide,
          show (2:Nat) ≤ 3 from by decide,
          fun _ => show (2:Nat) ≤ 2 from by decide,
          fun _ _ => rfl, fun e' he => SendOutcome.noConfusion he⟩
      · rcases hf : w.fallbackSend with _ | e2
        · rw [handleBody_success_sendfail_ok w (jsToLower m.body) t e1
            h hack hc hr hf]
          exact ⟨rfl, show (1:Nat) ≤ 3 from by decide,
            show (3:Nat) ≤ 3 from by decide,
            fun _ => show (2:Nat) ≤ 3 from by decide,
            fun _ hk => SendOutcome.noConfusion hk,
            fun e' he => SendOutcome.noConfusion he⟩
        · rw [handleBody_success_sendfail_fail w (jsToLower m.body) t e1
            e2 h hack hc hr hf]
          exact ⟨rfl, show (1:Nat) ≤ 3 from by decide,
            show (3:Nat) ≤ 3 from by decide,
            fun _ => show (2:Nat) ≤ 3 from by decide,
            fun _ hk => SendOutcome.noConfusion hk,
            fun e' he => SendOutcome.noConfusion he⟩
    · rcases hf : w.fallbackSend with _ | e2
      · rw [handleBody_failure_ok w (jsToLower m.body) e h hack hc hf]
        exact ⟨rfl, show (1:Nat) ≤ 2 from by decide,
          show (2:Nat) ≤ 3 from by decide,
          fun _ => show (2:Nat) ≤ 2 from by decide,
          fun _ _ => rfl, fun e' he => SendOutcome.noConfusion he⟩
      · rw [handleBody_failure_fail w (jsToLower m.body) e e2 h hack hc hf]
        exact ⟨rfl, show (1:Nat) ≤ 2 from by decide,
          show (2:Nat) ≤ 3 from by decide,
          fun _ => show (2:Nat) ≤ 2 from by decide,
          fun _ _ => rfl, fun e' he => SendOutcome.noConfusion he⟩
  · rw [handleBody_ack_fail w (jsToLower m.body) e0 h hack]
    exact ⟨rfl, show (1:Nat) ≤ 1 from by decide,
      show (1:Nat) ≤ 3 from by decide,
      fun hk => SendOutcome.noConfusion hk,
      fun hk _ => SendOutcome.noConfusion hk, fun e' _ => rfl⟩

/-- Witness for C6's theorem in the all-success run on body "hi". -/
theorem c6_send_count_witness :
    (handle (okWorld "x") (msgA "hi")).sends.head? = some ackText ∧
    1 ≤ (handle (okWorld "x") (msgA "hi")).sends.length ∧
    (handle (okWorld "x") (msgA "hi")).sends.length ≤ 3 ∧
    ((okWorld "x").ackSend = .ok →
      2 ≤ (handle (okWorld "x") (msgA "hi")).sends.length) ∧
    ((okWorld "x").ackSend = .ok → (okWorld "x").resultSend = .ok →
      (handle (okWorld "x") (msgA "hi")).sends.length = 2) ∧
    (∀ e, (okWorld "x").ackSend = .fail e →
      (handle (okWorld "x") (msgA "hi")).sends = [ackText]) :=
  c6_send_count_bounds (okWorld "x") (msgA "hi") (by decide)

/-- C7 (corrected), counterexample: with the credential absent from the
environment, startup does NOT exit non-zero — the top level of
src/index.js performs no credential check and has no exit path. -/
theorem c7_missing_credential_still_starts :
    (startup { googleApiKey := none }).1 ≠ .exitNonZero := by
  decide

/-- C7 (amended): startup never fails, whatever the environment: the
process registers the qr, ready and message handlers and starts the
session regardless of whether the credential is present; the credential
is only consulted by the external completion call, whose per-message
failure takes the fallback path. -/
theorem c7_startup_never_exits (env : Env) :
    (startup env).1 = .running ∧
    (startup env).2 = ["qr", "ready", "message"] :=
  ⟨rfl, rfl⟩

/-- C8 (confirmed): the handler treats the message as read-only — the
message object after the run equals the one delivered, for every run of
the external world; the handler only reads `body` and calls `reply`. -/
theorem c8_message_read_only (w : World) (m : IncomingMessage) :
    (handle w m).message = m :=
  rfl

/-- C9 (confirmed): the handler is case-insensitive in the body — two
messages whose bodies lower-case to the same string produce the same
prompts, the same outbound replies, the same logs, and the same
termination, under the same external behaviour. -/
theorem c9_case_insensitive (w : World) (m1 m2 : IncomingMessage)
    (h : jsToLower m1.body = jsToLower m2.body) :
    (handle w m1).prompts = (handle w m2).prompts ∧
    (handle w m1).sends = (handle w m2).sends ∧
    (handle w m1).logs = (handle w m2).logs ∧
    (handle w m1).termination = (handle w m2).termination := by
  have key : handleBody w (jsToLower m1.body)
      = handleBody w (jsToLower m2.body) := by rw [h]
  exact ⟨congrArg RunTrace.prompts key, congrArg RunTrace.sends key,
    congrArg RunTrace.logs key, congrArg RunTrace.termination key⟩

/-- Witness for C9's theorem on the pair "Hello" / "hELLO". -/
theorem c9_case_insensitive_witness :
    jsToLower (msgA "Hello").body = jsToLower (msgA "hELLO").body ∧
    ((handle (okWorld "x") (msgA "Hello")).prompts
        = (handle (okWorld "x") (msgA "hELLO")).prompts ∧
      (handle (okWorld "x") (msgA "Hello")).sends
        = (handle (okWorld "x") (msgA "hELLO")).sends ∧
      (handle (okWorld "x") (msgA "Hello")).logs
        = (handle (okWorld "x") (msgA "hELLO")).logs ∧
      (handle (okWorld "x") (msgA "Hello")).termination
        = (handle (okWorld "x") (msgA "hELLO")).termination) :=
  ⟨by decide,
    c9_case_insensitive (okWorld "x") (msgA "Hello") (msgA "hELLO")
      (by decide)⟩

/-- C10 (confirmed): when the acknowledgment send rejects on a non-empty
body, the cycle aborts before the AI is contacted — the completion client
is never invoked, the acknowledgment is the only attempted reply (no
result or fallback reply), and the rejection propagates out of the
handler. -/
theorem c10_ack_failure_aborts_before_ai (w : World) (m : IncomingMessage)
    (e : String) (hb : m.body ≠ "") (hfail : w.ackSend = .fail e) :
    (handle w m).prompts = [] ∧
    (handle w m).sends = [ackText] ∧
    (handle w m).termination = .rejected e := by
  have h : jsToLower m.body ≠ "" := jsToLower_ne_empty hb
  show (handleBody w (jsToLower m.body)).prompts = [] ∧
    (handleBody w (jsToLower m.body)).sends = [ackText] ∧
    (handleBody w (jsToLower m.body)).termination = .rejected e
  unfold handleBody
  rw [if_neg h, hfail]
  exact ⟨rfl, rfl, rfl⟩

/-- Witness for C10's theorem in the run whose acknowledgment send
rejects. -/
theorem c10_ack_failure_witness :
    (handle ackFailWorld (msgA "hi")).prompts = [] ∧
    (handle ackFailWorld (msgA "hi")).sends = [ackText] ∧
    (handle ackFailWorld (msgA "hi")).termination
      = .rejected "send failed" :=
  c10_ack_failure_aborts_before_ai ackFailWorld (msgA "hi") "send failed"
    (by decide) rfl
